import Mathlib

set_option maxHeartbeats 1000000

/-!
Verification of the CSV analysis agent (`agent_module.py`).

The repository is a Streamlit front-end (`app.py`) over five analysis tool
functions and a two-node langgraph tool loop (`agent_module.py`).  This file
shallowly embeds the tool functions.  Modelling conventions:

* A parsed CSV (`pd.read_csv` result) is a `DataFrame`: a list of named
  columns of `Cell`s, where a cell is missing (`na`, modelling NaN), a
  number (`num`, a rational standing for the parsed float), or a string
  (`str`).  A column whose cells are all numbers or missing has pandas
  dtype float/int ("numeric"); a column with at least one string cell has
  dtype object.
* The file system and the CSV parser are modelled by an `Env` that records
  what `pd.read_csv` returns for the queried path under the default
  encoding and under `latin1` (the two reads the code can perform).
  Exceptions raised by the parser are the error constructors of
  `ReadResult`; Python's per-exception-type `except` clauses become
  matches on those constructors.
* Real arithmetic on float64 is modelled exactly on `ℚ`.  Printing of
  floats (`:.2f`, `str`) is modelled by executable renderers
  (`formatQ2`, `renderQ`); they agree with CPython up to float rounding
  at half-ulp ties, which no claim depends on.
-/

namespace AgentAnalyst

/- Batteries marks the `ℚ` arithmetic `@[irreducible]`, which blocks
elaborator-side evaluation (the kernel unfolds them regardless); reopen
them so that `decide` can evaluate the model on concrete inputs. -/
attribute [local semireducible] Rat.add Rat.sub Rat.mul Rat.inv Rat.ofScientific

/-! ### Cells, columns, data frames -/

/-- One cell of a parsed CSV: missing (NaN), a number, or a string. -/
inductive Cell where
  | na : Cell
  | num (x : ℚ) : Cell
  | str (s : String) : Cell
  deriving DecidableEq

/-- A named column of a parsed CSV. -/
structure Column where
  name : String
  cells : List Cell
  deriving DecidableEq

/-- A parsed CSV, column-major, as produced by `pd.read_csv`. -/
structure DataFrame where
  cols : List Column
  deriving DecidableEq

def Cell.isNA : Cell → Bool
  | .na => true
  | _ => false

def Cell.isStr : Cell → Bool
  | .str _ => true
  | _ => false

/-- The numeric value of a cell, when it has one. -/
def Cell.toNum : Cell → Option ℚ
  | .num x => some x
  | _ => none

/-- `select_dtypes(include=['number'])` membership: a CSV column gets a
numeric dtype exactly when no cell of it is a string (an all-NaN column is
`float64`, hence numeric). -/
def Column.isNumeric (c : Column) : Bool :=
  c.cells.all fun x => !x.isStr

/-- The non-missing cells of a column, in row order. -/
def Column.nonNA (c : Column) : List Cell :=
  c.cells.filter fun x => !x.isNA

/-- The numeric values of a column, in row order (NaN skipped). -/
def Column.numData (c : Column) : List ℚ :=
  c.cells.filterMap Cell.toNum

/-- `len(df)`: pandas data frames are rectangular, so the row count is the
length of any column; we read it off the first one. -/
def DataFrame.nrows (df : DataFrame) : Nat :=
  (df.cols.head?.map fun c => c.cells.length).getD 0

/-- Rectangularity of a data frame (true of every `pd.read_csv` result). -/
def DataFrame.wf (df : DataFrame) : Prop :=
  ∀ c ∈ df.cols, c.cells.length = df.nrows

instance (df : DataFrame) : Decidable df.wf :=
  inferInstanceAs (Decidable (∀ c ∈ df.cols, c.cells.length = df.nrows))

/-- `df.empty`: true when the frame has no rows or no columns. -/
def DataFrame.isEmptyDF (df : DataFrame) : Bool :=
  df.cols.isEmpty || df.nrows == 0

/-- `df.select_dtypes(include=['number']).columns`, as columns. -/
def DataFrame.numericCols (df : DataFrame) : List Column :=
  df.cols.filter fun c => c.isNumeric

/-- `df.select_dtypes(include=['object']).columns`, as columns. -/
def DataFrame.objectCols (df : DataFrame) : List Column :=
  df.cols.filter fun c => !c.isNumeric

/-! ### String helpers (substring testing, joining, number rendering) -/

/-- `p` is a prefix of `l`, executably. -/
def listPrefixOf : List Char → List Char → Bool
  | [], _ => true
  | _ :: _, [] => false
  | a :: as, b :: bs => a == b && listPrefixOf as bs

/-- `p` occurs as a contiguous sublist of `l`, executably. -/
def listInfixOf (p l : List Char) : Bool :=
  match l with
  | [] => p.isEmpty
  | c :: tl => listPrefixOf p (c :: tl) || listInfixOf p tl

/-- Python's `pat in s` on strings. -/
def strHas (s pat : String) : Bool :=
  listInfixOf pat.data s.data

/-- Python's `s.lower()` (ASCII case mapping, which is all the heuristics
compare against). -/
def pyLower (s : String) : String :=
  ⟨s.data.map Char.toLower⟩

/-- `sub` occurs somewhere inside `s` (specification-level containment). -/
def strContains (s sub : String) : Prop :=
  ∃ p q : String, s = p ++ sub ++ q

/-- Python's `sep.join(l)`. -/
def joinSep (sep : String) : List String → String
  | [] => ""
  | [a] => a
  | a :: b :: t => a ++ sep ++ joinSep sep (b :: t)

/-- Round to the nearest integer, ties to even (the rounding used by
CPython's fixed-point float formatting). -/
def roundHalfEven (x : ℚ) : ℤ :=
  let fl := ⌊x⌋
  let frac := x - fl
  if frac < 1 / 2 then fl
  else if 1 / 2 < frac then fl + 1
  else if fl % 2 = 0 then fl else fl + 1

/-- Two-digit zero-padded rendering of `r < 100`. -/
def pad2 (r : Nat) : String :=
  if r < 10 then "0" ++ toString r else toString r

/-- Model of Python's `f"{x:.2f}"` on the modelled real `x`. -/
def formatQ2 (q : ℚ) : String :=
  let n := roundHalfEven (q * 100)
  let sign := if n < 0 then "-" else ""
  let m := n.natAbs
  sign ++ toString (m / 100) ++ "." ++ pad2 (m % 100)

/-- Model of Python's `str` on a modelled number (integers print without a
decimal point; the exact float decimal expansion is below the model's
resolution and untouched by every claim). -/
def renderQ (q : ℚ) : String :=
  if q.den = 1 then toString q.num else toString q

/-- Model of Python's `str` on a cell value. -/
def Cell.render : Cell → String
  | .na => "nan"
  | .num x => renderQ x
  | .str s => s

def renderOptQ : Option ℚ → String
  | none => "nan"
  | some q => renderQ q

/-- Model of `f"{v:.2f}"` where `v` may be NaN. -/
def formatQ2Opt : Option ℚ → String
  | none => "nan"
  | some q => formatQ2 q

/-! ### Column detection heuristics -/

/-- The sales-column test of the source: `'sales' in col.lower() or
'outlet_sales' in col.lower()` (the second disjunct is subsumed by the
first but is kept as written). -/
def isSalesName (name : String) : Bool :=
  strHas (pyLower name) "sales" || strHas (pyLower name) "outlet_sales"

/-- The year-established test: `'year' in col.lower() and 'establish' in
col.lower()`. -/
def isYearName (name : String) : Bool :=
  strHas (pyLower name) "year" && strHas (pyLower name) "establish"

/-- The detection loop of `find_outliers` and `correlation_analysis`:
iterate over the columns and `break` at the first match. -/
def detectSalesFirst (df : DataFrame) : Option Column :=
  df.cols.find? fun c => isSalesName c.name

/-- The detection loop of `plot_trend`: iterate over all columns without
`break`, repeatedly overwriting the variable, so the last match wins. -/
def detectSalesLast (df : DataFrame) : Option Column :=
  df.cols.foldl (fun acc c => if isSalesName c.name then some c else acc) none

/-- The year-established detection loop of `plot_trend` (no `break`). -/
def detectYearLast (df : DataFrame) : Option Column :=
  df.cols.foldl (fun acc c => if isYearName c.name then some c else acc) none

/-! ### Percentiles (`np.percentile`, default linear interpolation) -/

/-- `np.percentile(xs, p)`: sort ascending, take `h = (n-1)·p/100`, and
linearly interpolate between the neighbouring order statistics. -/
def percentile (xs : List ℚ) (p : ℚ) : ℚ :=
  let s := List.insertionSort (· ≤ ·) xs
  let n := s.length
  let h : ℚ := ((n : ℚ) - 1) * p / 100
  let i : Nat := (⌊h⌋).toNat
  match s.get? i, s.get? (i + 1) with
  | some a, some b => a + (h - (i : ℚ)) * (b - a)
  | some a, none => a
  | none, _ => 0

/-! ### The environment: what `pd.read_csv(query)` can do

Each tool reads the queried path at most twice: once with the default
encoding and (in some tools) once more with `encoding='latin1'` after a
`UnicodeDecodeError`.  `Env` records the outcome of each of the two reads;
the error constructors model the exceptions the code dispatches on, each
carrying `str(e)` (and, for exceptions the code only ever stringifies
generically, `type(e).__name__`). -/

inductive ReadResult where
  | ok (df : DataFrame) : ReadResult
  | fileNotFound (msg : String) : ReadResult
  | emptyData (msg : String) : ReadResult
  | unicodeDecodeError (msg : String) : ReadResult
  | otherError (excName : String) (msg : String) : ReadResult
  deriving DecidableEq

/-- `type(e).__name__` for the modelled exceptions. -/
def ReadResult.rrName : ReadResult → String
  | .ok _ => ""
  | .fileNotFound _ => "FileNotFoundError"
  | .emptyData _ => "EmptyDataError"
  | .unicodeDecodeError _ => "UnicodeDecodeError"
  | .otherError n _ => n

/-- `str(e)` for the modelled exceptions. -/
def ReadResult.rrMsg : ReadResult → String
  | .ok _ => ""
  | .fileNotFound m => m
  | .emptyData m => m
  | .unicodeDecodeError m => m
  | .otherError _ m => m

structure Env where
  readDefault : ReadResult
  readLatin1 : ReadResult
  deriving DecidableEq

/-- The read-with-fallback prologue of `plot_trend`, `find_outliers` and
`correlation_analysis`: `try: pd.read_csv(q) except UnicodeDecodeError:
pd.read_csv(q, encoding='latin1')`. -/
def readCsvFb (env : Env) : ReadResult :=
  match env.readDefault with
  | .unicodeDecodeError _ => env.readLatin1
  | r => r

/-- The `if not query or not isinstance(query, str)` guard (the type side
cannot fail in the typed model). -/
def emptyPathMsg : String := "Ошибка: пустой или некорректный путь к файлу"

def notFoundMsg (query : String) : String :=
  "Ошибка: файл \x27" ++ query ++ "\x27 не найден. Проверь путь к файлу."

def emptyFileMsg (query : String) : String :=
  "Ошибка: файл \x27" ++ query ++ "\x27 пустой."

def colList (df : DataFrame) : String :=
  joinSep ", " (df.cols.map fun c => c.name)

/-! ### `load_csv` -/

/-- The success summary of `load_csv` (default-encoding branch). -/
def loadOkMsg (df : DataFrame) : String :=
  "Загружено " ++ toString df.nrows ++ " строк, " ++ toString df.cols.length
    ++ " столбцов. Столбцы: " ++ colList df

/-- The success summary of `load_csv` after the latin1 retry. -/
def loadOkLatin1Msg (df : DataFrame) : String :=
  "Загружено " ++ toString df.nrows ++ " строк, " ++ toString df.cols.length
    ++ " столбцов (кодировка latin1). Столбцы: " ++ colList df

/-- `load_csv` (agent_module.py lines 23-62). -/
def load_csv (env : Env) (query : String) : String :=
  if query = "" then emptyPathMsg
  else
    match env.readDefault with
    | .ok df =>
        if df.isEmptyDF then emptyFileMsg query
        else loadOkMsg df
    | .fileNotFound _ => notFoundMsg query
    | .emptyData _ =>
        "Ошибка: файл \x27" ++ query ++ "\x27 пустой или содержит только заголовки."
    | .unicodeDecodeError _ =>
        match env.readLatin1 with
        | .ok df => loadOkLatin1Msg df
        | e2 => "Ошибка кодировки: " ++ e2.rrMsg
    | .otherError n m =>
        "Неизвестная ошибка при загрузке файла \x27" ++ query ++ "\x27: "
          ++ n ++ " - " ++ m

/-! ### `describe_data` and the model of `DataFrame.describe()` -/

/-- The numeric-column row of `df.describe()`.  `std` is the square root
of `varSample`; since it is irrational it is carried by its square (no
claim inspects the printed digits of `std`). -/
structure NumStats where
  count : Nat
  mean : Option ℚ
  varSample : Option ℚ
  min : Option ℚ
  q25 : Option ℚ
  q50 : Option ℚ
  q75 : Option ℚ
  max : Option ℚ
  deriving DecidableEq

def numStatsOf (c : Column) : NumStats :=
  let xs := c.numData
  let n := xs.length
  { count := n
    mean := if n = 0 then none else some (xs.sum / (n : ℚ))
    varSample :=
      if n < 2 then none
      else
        some (((xs.map fun x =>
          (x - xs.sum / (n : ℚ)) * (x - xs.sum / (n : ℚ))).sum) / ((n : ℚ) - 1))
    min := xs.min?
    q25 := if n = 0 then none else some (percentile xs 25)
    q50 := if n = 0 then none else some (percentile xs 50)
    q75 := if n = 0 then none else some (percentile xs 75)
    max := xs.max? }

/-- The object-column row of `df.describe()` (count / unique / top /
freq).  `top`'s tie-break order among equally frequent values is not
pinned down by any claim; the model keeps the first maximiser in
first-occurrence order. -/
structure ObjStats where
  count : Nat
  unique : Nat
  top : Option Cell
  freq : Nat
  deriving DecidableEq

/-- First-occurrence deduplication (structurally recursive so that the
kernel can evaluate it). -/
def dedupFirstAux (seen : List Cell) : List Cell → List Cell
  | [] => []
  | x :: xs =>
      if x ∈ seen then dedupFirstAux seen xs
      else x :: dedupFirstAux (x :: seen) xs

def dedupFirst (l : List Cell) : List Cell :=
  dedupFirstAux [] l

def objStatsOf (c : Column) : ObjStats :=
  let xs := c.nonNA
  let keys := dedupFirst xs
  let counted := keys.map fun k => (k, xs.count k)
  let best := counted.foldl
    (fun acc p => match acc with
      | none => some p
      | some q => if q.2 < p.2 then some p else acc)
    none
  { count := xs.length
    unique := keys.length
    top := best.map fun p => p.1
    freq := (best.map fun p => p.2).getD 0 }

/-- `df.describe()`: with at least one numeric column pandas summarises
the numeric columns only; with none it summarises all (object) columns
with count/unique/top/freq. -/
inductive DescribeTable where
  | numeric (entries : List (String × NumStats)) : DescribeTable
  | objects (entries : List (String × ObjStats)) : DescribeTable
  deriving DecidableEq

def describeDF (df : DataFrame) : DescribeTable :=
  if df.numericCols.isEmpty then
    .objects (df.cols.map fun c => (c.name, objStatsOf c))
  else
    .numeric (df.numericCols.map fun c => (c.name, numStatsOf c))

/-- `stats.empty`: the described table has no columns. -/
def DescribeTable.isEmptyT : DescribeTable → Bool
  | .numeric es => es.isEmpty
  | .objects es => es.isEmpty

/-- Rendering of one numeric describe column.  Loose model of
`DataFrame.to_string` (the claims depend on which columns and statistics
appear, not on pandas' whitespace layout); `std` prints as the square
root of the carried variance. -/
def renderNumEntry (p : String × NumStats) : String :=
  p.1 ++ ": count=" ++ toString p.2.count
    ++ " mean=" ++ renderOptQ p.2.mean
    ++ " std=sqrt(" ++ renderOptQ p.2.varSample ++ ")"
    ++ " min=" ++ renderOptQ p.2.min
    ++ " 25%=" ++ renderOptQ p.2.q25
    ++ " 50%=" ++ renderOptQ p.2.q50
    ++ " 75%=" ++ renderOptQ p.2.q75
    ++ " max=" ++ renderOptQ p.2.max

def renderObjEntry (p : String × ObjStats) : String :=
  p.1 ++ ": count=" ++ toString p.2.count
    ++ " unique=" ++ toString p.2.unique
    ++ " top=" ++ ((p.2.top.map Cell.render).getD "nan")
    ++ " freq=" ++ toString p.2.freq

def renderDescribe : DescribeTable → String
  | .numeric es => joinSep "\n" (es.map renderNumEntry)
  | .objects es => joinSep "\n" (es.map renderObjEntry)

def noNumericMsg (query : String) : String :=
  "Ошибка: в файле \x27" ++ query ++ "\x27 нет числовых столбцов для анализа."

/-- `describe_data` (agent_module.py lines 65-93).  Note: no
`UnicodeDecodeError` retry here, and no dedicated handler for it either,
so a decode failure lands in the generic `except`. -/
def describe_data (env : Env) (query : String) : String :=
  if query = "" then emptyPathMsg
  else
    match env.readDefault with
    | .ok df =>
        if df.isEmptyDF then emptyFileMsg query
        else
          let stats := describeDF df
          if stats.isEmptyT then noNumericMsg query
          else renderDescribe stats
    | .fileNotFound _ => notFoundMsg query
    | e =>
        "Неизвестная ошибка при получении статистики: "
          ++ e.rrName ++ " - " ++ e.rrMsg

/-! ### `plot_trend` -/

/-- Ascending order on group keys, as pandas sorts a groupby index.
Pandas raises on heterogeneous (number/string mixed) keys; the model
totalises the order arbitrarily across kinds and `plot_trend` routes the
heterogeneous case to its generic error branch instead. -/
def cellKeyLeB (a b : Cell) : Bool :=
  match a, b with
  | .num x, .num y => decide (x ≤ y)
  | .str x, .str y => decide (x ≤ y)
  | .num _, .str _ => true
  | .str _, .num _ => false
  | .na, _ => true
  | _, .na => false

def cellKeyLe (a b : Cell) : Prop := cellKeyLeB a b = true

instance : DecidableRel cellKeyLe := fun a b =>
  inferInstanceAs (Decidable (cellKeyLeB a b = true))

/-- Whether a column's non-missing values are of one kind, so that
pandas can sort them as a groupby index. -/
def Column.homogKeys (c : Column) : Bool :=
  (c.nonNA.all fun x => x.isStr) || (c.nonNA.all fun x => !x.isStr)

/-- The groupby index of `df.groupby(year_col)`: the distinct non-missing
keys, sorted ascending. -/
def yearKeys (yc : Column) : List Cell :=
  List.insertionSort cellKeyLe (dedupFirst yc.nonNA)

/-- `df.groupby(yc)[sc].sum()` at key `k`: the sum of the non-missing
sales values of the rows whose year cell equals `k` (an all-NaN group
sums to 0, as in pandas). -/
def groupSum (yc sc : Column) (k : Cell) : ℚ :=
  ((yc.cells.zip sc.cells).filterMap fun p =>
    if p.1 = k then p.2.toNum else none).sum

/-- `sales_by_year`: keys ascending with their group sums. -/
def trendData (yc sc : Column) : List (Cell × ℚ) :=
  (yearKeys yc).map fun k => (k, groupSum yc sc k)

/-- What `plt.savefig` persisted: the bar chart data and its file name. -/
structure Plot where
  labels : List String
  heights : List ℚ
  file : String
  deriving DecidableEq

def noYearColMsg (df : DataFrame) : String :=
  "Ошибка: не найден столбец с годом основания. Доступные столбцы: " ++ colList df

def noSalesColMsg (df : DataFrame) : String :=
  "Ошибка: не найден столбец с продажами. Доступные столбцы: " ++ colList df

/-- Generic `except Exception` rendering of `plot_trend`. -/
def plotErrMsg (excName msg : String) : String :=
  "Ошибка при построении графика: " ++ excName ++ " - " ++ msg

/-- Models the matplotlib/pandas exception on bar-plotting object-dtype
group sums (string sales cells); its exact text is asserted by no claim. -/
def plotTypeErrMsg : String :=
  plotErrMsg "TypeError" "нечисловые данные для графика (модель библиотечного исключения)"

/-- Models the pandas exception on sorting a heterogeneous groupby index
(mixed number/string year keys); its exact text is asserted by no claim. -/
def plotGroupErr : Option Plot × String :=
  (none, plotErrMsg "TypeError" "несравнимые ключи группировки (модель библиотечного исключения)")

def plotSuccessMsg (keys : List Cell) (nrows : Nat) : String :=
  "✅ График сохранён как \x27sales_trend.png\x27.\n"
    ++ "Диапазон лет: " ++ ((keys.head?.map Cell.render).getD "")
    ++ "–" ++ ((keys.getLast?.map Cell.render).getD "")
    ++ "\nВсего записей: " ++ toString nrows

/-- `plot_trend` (agent_module.py lines 96-156), with the saved figure
made explicit as the first component (the source's `plt.savefig`
side effect). -/
def plot_trend_run (env : Env) (query : String) : Option Plot × String :=
  if query = "" then (none, emptyPathMsg)
  else
    match readCsvFb env with
    | .ok df =>
        if df.isEmptyDF then (none, emptyFileMsg query)
        else
          match detectYearLast df with
          | none => (none, noYearColMsg df)
          | some yc =>
              match detectSalesLast df with
              | none => (none, noSalesColMsg df)
              | some sc =>
                  if !yc.homogKeys then plotGroupErr
                  else
                    let keys := yearKeys yc
                    if keys.isEmpty then
                      (none, "Ошибка: нет данных для построения графика после группировки.")
                    else if !sc.isNumeric then (none, plotTypeErrMsg)
                    else
                      let data := trendData yc sc
                      (some { labels := data.map fun p => p.1.render
                              heights := data.map fun p => p.2
                              file := "sales_trend.png" },
                       plotSuccessMsg keys df.nrows)
    | .fileNotFound _ => (none, notFoundMsg query)
    | e => (none, plotErrMsg e.rrName e.rrMsg)

/-- The string the tool returns (the figure file is a side effect). -/
def plot_trend (env : Env) (query : String) : String :=
  (plot_trend_run env query).2

/-! ### `find_outliers` -/

/-- `df.dropna(subset=[sales_col])` restricted to what the function later
reads: the (original pandas index, sales cell) pairs with the sales cell
present. -/
def cleanedSales (c : Column) : List (Nat × Cell) :=
  c.cells.enum.filter fun p => !p.2.isNA

/-- The same rows with their numeric values (on a numeric-dtype column
this is all of `cleanedSales`). -/
def salesNums (c : Column) : List (Nat × ℚ) :=
  c.cells.enum.filterMap fun p => (p.2.toNum).map fun x => (p.1, x)

/-- `q1`, `q3`, and the IQR fences of `find_outliers` (lines 199-205):
`(q1 - 1.5*iqr, q3 + 1.5*iqr)`. -/
def outlierBounds (vals : List ℚ) : ℚ × ℚ :=
  let q1 := percentile vals 25
  let q3 := percentile vals 75
  let iqr := q3 - q1
  (q1 - 1.5 * iqr, q3 + 1.5 * iqr)

/-- The rows of `df_clean` flagged by
`(df_clean[sales_col] < lower_bound) | (df_clean[sales_col] > upper_bound)`. -/
def flaggedOutliers (vals : List (Nat × ℚ)) : List (Nat × ℚ) :=
  let b := outlierBounds (vals.map Prod.snd)
  vals.filter fun p => decide (p.2 < b.1) || decide (b.2 < p.2)

def allMissingMsg : String :=
  "Ошибка: все значения в столбце продаж отсутствуют (NaN)."

def outliersErrMsg (excName msg : String) : String :=
  "Ошибка при поиске аномалий: " ++ excName ++ " - " ++ msg

/-- Models the numpy exception when `np.percentile` meets string values
(object-dtype sales column); its exact text is asserted by no claim. -/
def outliersTypeErrMsg : String :=
  outliersErrMsg "TypeError" "нечисловые значения продаж (модель библиотечного исключения)"

def noOutliersFoundMsg (lb ub : ℚ) : String :=
  "Аномалии не обнаружены. Все продажи находятся в диапазоне ["
    ++ formatQ2 lb ++ ", " ++ formatQ2 ub ++ "]."

/-- One `- Запись #idx: value` example line. -/
def outlierExample (p : Nat × ℚ) : String :=
  "- Запись #" ++ toString p.1 ++ ": " ++ formatQ2 p.2

/-- The success message of `find_outliers` when outliers exist
(lines 217-231). -/
def outliersFoundMsg (outliers : List (Nat × ℚ)) (lb ub : ℚ) : String :=
  "Найдено " ++ toString outliers.length
    ++ " аномальных продаж вне диапазона [" ++ formatQ2 lb ++ ", " ++ formatQ2 ub
    ++ "].\n\n"
    ++ "Примеры аномалий (первые 3 записи):\n"
    ++ joinSep "\n" ((outliers.take 3).map outlierExample)
    ++ "\n\n"
    ++ "Бизнес-интерпретация:\n"
    ++ "- Высокие аномалии (> " ++ formatQ2 ub
    ++ "): вероятно оптовые заказы или ошибки ввода (лишний ноль)\n"
    ++ "- Низкие аномалии (< " ++ formatQ2 lb
    ++ "): возможны возвраты товара или технические ошибки\n"
    ++ "Рекомендация: проверить " ++ toString outliers.length
    ++ " записей вручную перед удалением из датасета."

/-- `find_outliers` (agent_module.py lines 159-236). -/
def find_outliers (env : Env) (query : String) : String :=
  if query = "" then emptyPathMsg
  else
    match readCsvFb env with
    | .ok df =>
        if df.isEmptyDF then emptyFileMsg query
        else
          match detectSalesFirst df with
          | none => noSalesColMsg df
          | some sales =>
              let cleaned := cleanedSales sales
              if cleaned.isEmpty then allMissingMsg
              else if cleaned.any fun p => p.2.isStr then outliersTypeErrMsg
              else
                let vals := salesNums sales
                let b := outlierBounds (vals.map Prod.snd)
                let outliers := flaggedOutliers vals
                if outliers.isEmpty then noOutliersFoundMsg b.1 b.2
                else outliersFoundMsg outliers b.1 b.2
    | .fileNotFound _ => notFoundMsg query
    | e => outliersErrMsg e.rrName e.rrMsg

/-! ### `correlation_analysis` and the model of `DataFrame.corr()`

Pearson's `r` of two columns is `sxy / sqrt(sxx * syy)`, an irrational
number in general.  The model carries it by its sign and its square,
which determine every use the code makes of it exactly:
`abs(r) > 0.3 ↔ r² > 9/100`, `abs(r₁) ≥ abs(r₂) ↔ r₁² ≥ r₂²`, and
`r > 0 ↔ sign > 0`. -/

structure CorrVal where
  sgn : ℤ
  absSq : ℚ
  deriving DecidableEq

/-- The rows where both cells are present numbers (pandas computes each
correlation pairwise over complete observations). -/
def corrPairs (xs ys : List Cell) : List (ℚ × ℚ) :=
  (xs.zip ys).filterMap fun p =>
    match p.1.toNum, p.2.toNum with
    | some a, some b => some (a, b)
    | _, _ => none

/-- `df[[x, y]].corr().loc[x, y]`: `none` models the NaN produced when a
column is constant (zero variance) or no complete pair exists. -/
def corrOf (xs ys : List Cell) : Option CorrVal :=
  let ps := corrPairs xs ys
  if ps.isEmpty then none
  else
    let n : ℚ := ps.length
    let mx := (ps.map fun p => p.1).sum / n
    let my := (ps.map fun p => p.2).sum / n
    let sxy := (ps.map fun p => (p.1 - mx) * (p.2 - my)).sum
    let sxx := (ps.map fun p => (p.1 - mx) * (p.1 - mx)).sum
    let syy := (ps.map fun p => (p.2 - my) * (p.2 - my)).sum
    if sxx = 0 ∨ syy = 0 then none
    else
      some { sgn := if 0 < sxy then 1 else if sxy < 0 then -1 else 0
             absSq := sxy * sxy / (sxx * syy) }

/-- `numeric_cols` of the source (lines 274-275): the numeric-dtype
columns other than the sales column. -/
def numericOthers (df : DataFrame) (sales : Column) : List Column :=
  df.numericCols.filter fun c => c.name ≠ sales.name

/-- The `correlations` list (lines 281-285): each other numeric column
whose correlation with sales exists and exceeds `0.3` in absolute value
(`abs(r) > 0.3` is `r² > 9/100`; NaN fails the test). -/
def corrCandidates (df : DataFrame) (sales : Column) : List (String × CorrVal) :=
  (numericOthers df sales).filterMap fun c =>
    match corrOf c.cells sales.cells with
    | some v => if (9 / 100 : ℚ) < v.absSq then some (c.name, v) else none
    | none => none

/-- The sort key of `correlations.sort(key=lambda x: abs(x[1]),
reverse=True)`: decreasing absolute correlation.  A stable insertion sort
with this non-strict relation reproduces Python's stable sort. -/
def corrGE (a b : String × CorrVal) : Prop :=
  b.2.absSq ≤ a.2.absSq

instance : DecidableRel corrGE := fun a b =>
  inferInstanceAs (Decidable (b.2.absSq ≤ a.2.absSq))

instance : IsTotal (String × CorrVal) corrGE :=
  ⟨fun a b => le_total b.2.absSq a.2.absSq⟩

instance : IsTrans (String × CorrVal) corrGE :=
  ⟨fun _ _ _ hab hbc => le_trans hbc hab⟩

def corrSort (l : List (String × CorrVal)) : List (String × CorrVal) :=
  List.insertionSort corrGE l

/-- `top3 = correlations[:3]` after the sort (line 290). -/
def corrReported (df : DataFrame) (sales : Column) : List (String × CorrVal) :=
  (corrSort (corrCandidates df sales)).take 3

/-- Model of `f"{corr:.2f}"`: `r = sgn·sqrt(absSq)` is irrational, so the
model prints it as a signed square root; no claim inspects these digits. -/
def renderCorrVal (v : CorrVal) : String :=
  (if v.sgn < 0 then "-" else "") ++ "sqrt(" ++ renderQ v.absSq ++ ")"

/-- One `"{i}. {col} ↔ {sales_col}: {corr:.2f} ({direction})"` line,
`i` counted from 1. -/
def corrLine (salesName : String) (p : Nat × (String × CorrVal)) : String :=
  toString (p.1 + 1) ++ ". " ++ p.2.1 ++ " ↔ " ++ salesName ++ ": "
    ++ renderCorrVal p.2.2 ++ " ("
    ++ (if 0 < p.2.2.sgn then "положительная" else "отрицательная") ++ ")"

/-- `numeric_report` (lines 277-297). -/
def numericReport (df : DataFrame) (sales : Column) : String :=
  if (numericOthers df sales).isEmpty then
    "Числовых переменных для корреляции не найдено."
  else if (corrCandidates df sales).isEmpty then
    "Сильных корреляций (|коэф| > 0.3) не обнаружено."
  else
    joinSep "\n"
      ("ТОП-3 корреляций с продажами:"
        :: ((corrReported df sales).enum.map (corrLine sales.name)))

/-- `categorical_cols` (lines 300-301): object-dtype columns with
`nunique() <= 50` (distinct non-missing values). -/
def catCols (df : DataFrame) : List Column :=
  df.objectCols.filter fun c => (dedupFirst c.nonNA).length ≤ 50

/-- `df.groupby(cat)[sales].mean()` at key `k`: mean of the present sales
values in the rows with category `k`; `none` models the NaN of an
all-missing group. -/
def groupMean (cat sales : Column) (k : Cell) : Option ℚ :=
  let vals := (cat.cells.zip sales.cells).filterMap fun p =>
    if p.1 = k then p.2.toNum else none
  if vals.isEmpty then none else some (vals.sum / (vals.length : ℚ))

/-- Decreasing order on group means, NaN last, as
`sort_values(ascending=False)` arranges them. -/
def meanGEb (a b : Cell × Option ℚ) : Bool :=
  match a.2, b.2 with
  | some x, some y => decide (y ≤ x)
  | some _, none => true
  | none, some _ => false
  | none, none => true

def meanGE (a b : Cell × Option ℚ) : Prop := meanGEb a b = true

instance : DecidableRel meanGE := fun a b =>
  inferInstanceAs (Decidable (meanGEb a b = true))

/-- `grouped.sort_values(ascending=False).head(3)` for one categorical
column (lines 308-309): the top three categories by mean sales.  Pandas'
`sort_values` does not fix the order of tied means (quicksort); the model
uses a stable sort over the keys in first-occurrence order, which no
claim distinguishes. -/
def catTop (cat sales : Column) : List (Cell × Option ℚ) :=
  (List.insertionSort meanGE
    ((dedupFirst cat.nonNA).map fun k => (k, groupMean cat sales k))).take 3

/-- The categorical columns actually analysed with their reported
categories (`for col in categorical_cols[:2]`). -/
def catReported (df : DataFrame) (sales : Column) : List (Column × List (Cell × Option ℚ)) :=
  ((catCols df).take 2).map fun c => (c, catTop c sales)

def catBullet (p : Cell × Option ℚ) : String :=
  "  • " ++ p.1.render ++ ": " ++ formatQ2Opt p.2 ++ " руб"

def catSection (sales : Column) (c : Column) : String :=
  "\nСредние продажи по \x27" ++ c.name ++ "\x27:"
    ++ joinSep "" ((catTop c sales).map catBullet)

/-- `categorical_report` (lines 303-315). -/
def categoricalReport (df : DataFrame) (sales : Column) : String :=
  if (catCols df).isEmpty then
    "Категориальных переменных для анализа не найдено."
  else
    "Анализ категориальных переменных:"
      ++ joinSep "" (((catCols df).take 2).map (catSection sales))

/-- The fixed interpretation block (lines 318-325). -/
def corrInterp : String :=
  "\nБизнес-интерпретация:\n- Положительная корреляция означает: рост переменной → рост продаж\n- Отрицательная корреляция означает: рост переменной → падение продаж\n- Категориальные различия показывают: какие сегменты генерируют больше выручки\n\nРекомендация: сконцентрировать маркетинговые усилия на сегментах с высокими средними продажами.\n"

def corrErrMsg (excName msg : String) : String :=
  "Ошибка при корреляционном анализе: " ++ excName ++ " - " ++ msg

/-- Models the pandas exception when the detected sales column has object
dtype and is fed to `corr()` or `groupby().mean()`; raised only when one
of those calls actually runs.  Its exact text is asserted by no claim. -/
def corrTypeErrMsg : String :=
  corrErrMsg "TypeError" "нечисловой столбец продаж (модель библиотечного исключения)"

/-- `correlation_analysis` (agent_module.py lines 239-332). -/
def correlation_analysis (env : Env) (query : String) : String :=
  if query = "" then emptyPathMsg
  else
    match readCsvFb env with
    | .ok df =>
        if df.isEmptyDF then emptyFileMsg query
        else
          match detectSalesFirst df with
          | none => noSalesColMsg df
          | some sales =>
              if !sales.isNumeric
                  && (!(numericOthers df sales).isEmpty || !(catCols df).isEmpty) then
                corrTypeErrMsg
              else
                numericReport df sales ++ "\n\n" ++ categoricalReport df sales
                  ++ "\n\n" ++ corrInterp
    | .fileNotFound _ => notFoundMsg query
    | e => corrErrMsg e.rrName e.rrMsg

/-! ### The tool-calling graph (`should_continue`, `create_agent_executor`)

The language-model client, prompt binding and `ToolNode` execution are
third-party library internals (out of scope per the specification); the
model keeps the graph's topology: node names, plain edges, conditional
edges with their routing functions, and the entry point. -/

structure ToolCall where
  callId : String
  deriving DecidableEq

/-- A message as `should_continue` inspects it: `toolCalls = none` models
`hasattr(last, "tool_calls")` being false. -/
structure Message where
  toolCalls : Option (List ToolCall)
  deriving DecidableEq

/-- `should_continue` (lines 340-344).  `state["messages"][-1]` raises on
an empty list, modelled by `none`. -/
def should_continue (msgs : List Message) : Option String :=
  msgs.getLast?.map fun last =>
    match last.toolCalls with
    | some tcs => if tcs.length > 0 then "tools" else "__end__"
    | none => "__end__"

structure Graph where
  nodes : List String
  edges : List (String × String)
  condEdges : List (String × (List Message → Option String))
  entryPoint : String

def Graph.empty : Graph :=
  { nodes := [], edges := [], condEdges := [], entryPoint := "" }

def Graph.addNode (g : Graph) (n : String) : Graph :=
  { g with nodes := g.nodes ++ [n] }

def Graph.addEdge (g : Graph) (a b : String) : Graph :=
  { g with edges := g.edges ++ [(a, b)] }

def Graph.addCondEdges (g : Graph) (src : String)
    (f : List Message → Option String) : Graph :=
  { g with condEdges := g.condEdges ++ [(src, f)] }

def Graph.setEntry (g : Graph) (n : String) : Graph :=
  { g with entryPoint := n }

/-- `create_agent_executor` (lines 335-352): the builder-call sequence of
the source, node computations elided as library internals. -/
def create_agent_executor : Graph :=
  (((((Graph.empty.addNode "agent").addNode "tools").addEdge "agent" "tools").addCondEdges
      "tools" should_continue).setEntry "agent")

/-! ### Helper lemmas -/

theorem strContains_self (s : String) : strContains s s :=
  ⟨"", "", by simp⟩

theorem strContains_context (a s b : String) : strContains (a ++ s ++ b) s :=
  ⟨a, b, rfl⟩

theorem strContains_mono_left (a : String) {s u : String}
    (h : strContains s u) : strContains (a ++ s) u := by
  obtain ⟨p, q, rfl⟩ := h
  exact ⟨a ++ p, q, by simp [String.append_assoc]⟩

theorem strContains_mono_right (b : String) {s u : String}
    (h : strContains s u) : strContains (s ++ b) u := by
  obtain ⟨p, q, rfl⟩ := h
  exact ⟨p, q ++ b, by simp [String.append_assoc]⟩

theorem strContains_trans {s t u : String}
    (h₁ : strContains s t) (h₂ : strContains t u) : strContains s u := by
  obtain ⟨p, q, rfl⟩ := h₁
  obtain ⟨p', q', rfl⟩ := h₂
  exact ⟨p ++ p', q' ++ q, by simp [String.append_assoc]⟩

theorem strContains_joinSep (sep x : String) :
    ∀ l : List String, x ∈ l → strContains (joinSep sep l) x
  | [a], h => by
      rcases List.mem_cons.mp h with h | h
      · subst h; exact strContains_self x
      · exact absurd h (List.not_mem_nil x)
  | a :: b :: t, h => by
      rcases List.mem_cons.mp h with h | h
      · subst h
        exact strContains_mono_right _ (strContains_mono_right _ (strContains_self x))
      · exact strContains_mono_left (a ++ sep) (strContains_joinSep sep x (b :: t) h)

theorem getLast?_cons_or {α : Type _} (x : α) :
    ∀ l : List α, (x :: l).getLast? = l.getLast?.or (some x)
  | [] => rfl
  | b :: t => by
      rw [List.getLast?_cons_cons, getLast?_cons_or b t]
      cases t.getLast? <;> rfl

/-- A loop that overwrites an accumulator at every match keeps the last
match. -/
theorem foldl_detect {α : Type _} (p : α → Bool) :
    ∀ (l : List α) (a : Option α),
      l.foldl (fun acc c => if p c then some c else acc) a
        = ((l.filter p).getLast?).or a
  | [], a => rfl
  | x :: xs, a => by
      rw [List.foldl_cons, foldl_detect p xs (if p x then some x else a),
        List.filter_cons]
      by_cases h : p x
      · simp only [h, if_true, getLast?_cons_or]
        cases (xs.filter p).getLast? <;> rfl
      · simp only [h, if_false, Bool.false_eq_true, cond_false]

/-- A loop that `break`s at the first match is `find?`, which keeps the
first match of the filtered list. -/
theorem find?_eq_head?_filter {α : Type _} (p : α → Bool) :
    ∀ l : List α, l.find? p = (l.filter p).head?
  | [] => rfl
  | a :: l => by
      rw [List.find?_cons, List.filter_cons]
      by_cases h : p a
      · simp [h]
      · simp only [h, Bool.false_eq_true, cond_false, if_false]
        exact find?_eq_head?_filter p l

theorem detectSalesLast_eq (df : DataFrame) :
    detectSalesLast df = (df.cols.filter fun c => isSalesName c.name).getLast? := by
  unfold detectSalesLast
  rw [foldl_detect]
  cases (df.cols.filter fun c => isSalesName c.name).getLast? <;> rfl

theorem detectSalesFirst_eq (df : DataFrame) :
    detectSalesFirst df = (df.cols.filter fun c => isSalesName c.name).head? :=
  find?_eq_head?_filter _ df.cols

/-! ### Claim theorems -/

/-- C4: the tool-loop routing decision is exactly: `should_continue`
returns "tools" iff the last message carries a non-empty list of pending
tool calls, and the end marker otherwise; the graph has only the nodes
`agent` and `tools`, an unconditional edge `agent → tools`, a conditional
edge from `tools` governed by that decision, and entry point `agent`. -/
theorem agent_graph_routing_spec :
    create_agent_executor.nodes = ["agent", "tools"]
    ∧ create_agent_executor.edges = [("agent", "tools")]
    ∧ create_agent_executor.condEdges = [("tools", should_continue)]
    ∧ create_agent_executor.entryPoint = "agent"
    ∧ ∀ (msgs : List Message) (last : Message), msgs.getLast? = some last →
        ((should_continue msgs = some "tools" ↔
            ∃ tcs, last.toolCalls = some tcs ∧ tcs ≠ [])
          ∧ (should_continue msgs = some "tools"
              ∨ should_continue msgs = some "__end__")) := by
  refine ⟨rfl, rfl, rfl, rfl, ?_⟩
  intro msgs last h
  cases htc : last.toolCalls with
  | none =>
      have hs : should_continue msgs = some "__end__" := by
        unfold should_continue; rw [h]; simp [htc]
      refine ⟨⟨fun hx => ?_, fun ⟨tcs, htcs, _⟩ => ?_⟩, Or.inr hs⟩
      · rw [hs] at hx; exact absurd hx (by decide)
      · exact Option.noConfusion htcs
  | some tcs =>
      cases tcs with
      | nil =>
          have hs : should_continue msgs = some "__end__" := by
            unfold should_continue; rw [h]; simp [htc]
          refine ⟨⟨fun hx => ?_, fun ⟨tcs', htcs, hne⟩ => ?_⟩, Or.inr hs⟩
          · rw [hs] at hx; exact absurd hx (by decide)
          · exact absurd (Option.some.inj htcs).symm hne
      | cons t ts =>
          have hs : should_continue msgs = some "tools" := by
            unfold should_continue; rw [h]; simp [htc]
          exact ⟨⟨fun _ => ⟨t :: ts, rfl, by simp⟩, fun _ => hs⟩, Or.inl hs⟩

/-- C4 witness: the routing decision evaluated on a concrete one-message
state carrying one pending tool call. -/
theorem agent_graph_routing_spec_witness :
    (([⟨some [⟨"call_1"⟩]⟩] : List Message).getLast? = some ⟨some [⟨"call_1"⟩]⟩)
    ∧ ((should_continue [⟨some [⟨"call_1"⟩]⟩] = some "tools" ↔
          ∃ tcs, (Message.mk (some [⟨"call_1"⟩])).toolCalls = some tcs ∧ tcs ≠ [])
        ∧ (should_continue [⟨some [⟨"call_1"⟩]⟩] = some "tools"
            ∨ should_continue [⟨some [⟨"call_1"⟩]⟩] = some "__end__")) :=
  ⟨rfl, agent_graph_routing_spec.2.2.2.2 [⟨some [⟨"call_1"⟩]⟩] ⟨some [⟨"call_1"⟩]⟩ rfl⟩

/-- C9: `plot_trend`'s detection loop never `break`s and so selects the
last column whose lowercase name contains "sales", while `find_outliers`
and `correlation_analysis` `break` and select the first such column;
on a file with two or more sales-named columns the two choices can
differ. -/
theorem sales_column_selection_spec :
    (∀ df : DataFrame,
        detectSalesLast df = (df.cols.filter fun c => isSalesName c.name).getLast?
        ∧ detectSalesFirst df = (df.cols.filter fun c => isSalesName c.name).head?)
    ∧ (∃ df : DataFrame,
        2 ≤ (df.cols.filter fun c => isSalesName c.name).length
        ∧ detectSalesFirst df ≠ detectSalesLast df) := by
  refine ⟨fun df => ⟨detectSalesLast_eq df, detectSalesFirst_eq df⟩, ?_⟩
  exact ⟨⟨[⟨"Sales_A", []⟩, ⟨"Sales_B", []⟩]⟩, by decide, by decide⟩

/-- C6: `load_csv` on a missing file returns the file-not-found message;
on a file parsing to an empty table (this includes a headers-only file,
which parses to zero rows) or raising `EmptyDataError` (a fully empty
file) it returns an empty-file error message; and on a decode failure it
retries with latin1 and, if that read succeeds, returns the row/column
summary. -/
theorem load_csv_paths_spec (env : Env) (query : String) (hq : query ≠ "") :
    (∀ m, env.readDefault = .fileNotFound m → load_csv env query = notFoundMsg query)
    ∧ (∀ df, env.readDefault = .ok df → df.isEmptyDF = true →
        load_csv env query = emptyFileMsg query)
    ∧ (∀ m, env.readDefault = .emptyData m →
        load_csv env query =
          "Ошибка: файл \x27" ++ query ++ "\x27 пустой или содержит только заголовки.")
    ∧ (∀ m df, env.readDefault = .unicodeDecodeError m → env.readLatin1 = .ok df →
        load_csv env query = loadOkLatin1Msg df) := by
  refine ⟨fun m h => ?_, fun df h he => ?_, fun m h => ?_, fun m df h hl => ?_⟩
  · unfold load_csv; rw [h]; simp [hq]
  · unfold load_csv; rw [h]; simp [hq, he]
  · unfold load_csv; rw [h]; simp [hq]
  · unfold load_csv; rw [h]; simp [hq, hl]

/-- C6 witness: the not-found, empty-table and latin1-retry branches
evaluated at concrete environments. -/
theorem load_csv_paths_spec_witness :
    load_csv ⟨.fileNotFound "e", .ok ⟨[]⟩⟩ "data.csv" = notFoundMsg "data.csv"
    ∧ load_csv ⟨.ok ⟨[⟨"A", []⟩]⟩, .ok ⟨[]⟩⟩ "data.csv" = emptyFileMsg "data.csv"
    ∧ load_csv ⟨.unicodeDecodeError "u", .ok ⟨[⟨"A", [.num 1]⟩]⟩⟩ "data.csv"
        = loadOkLatin1Msg ⟨[⟨"A", [.num 1]⟩]⟩ :=
  ⟨(load_csv_paths_spec _ "data.csv" (by decide)).1 "e" rfl,
   (load_csv_paths_spec _ "data.csv" (by decide)).2.1 ⟨[⟨"A", []⟩]⟩ rfl (by decide),
   (load_csv_paths_spec _ "data.csv" (by decide)).2.2.2 "u" ⟨[⟨"A", [.num 1]⟩]⟩ rfl rfl⟩

/-- C5: every tool function is a total function into `String` (no
exception escapes: the model's type already enforces totality), and an
arbitrary exception raised by the underlying read—the `otherError`
constructor, carrying `type(e).__name__` and `str(e)`—is caught by each
tool's generic handler and rendered into its returned error message. -/
theorem tools_error_rendering_spec (env : Env) (query name msg : String)
    (hq : query ≠ "") (h : env.readDefault = .otherError name msg) :
    load_csv env query =
      "Неизвестная ошибка при загрузке файла \x27" ++ query ++ "\x27: "
        ++ name ++ " - " ++ msg
    ∧ describe_data env query =
        "Неизвестная ошибка при получении статистики: " ++ name ++ " - " ++ msg
    ∧ plot_trend env query = plotErrMsg name msg
    ∧ find_outliers env query = outliersErrMsg name msg
    ∧ correlation_analysis env query = corrErrMsg name msg := by
  have hfb : readCsvFb env = .otherError name msg := by
    unfold readCsvFb; rw [h]
  refine ⟨?_, ?_, ?_, ?_, ?_⟩
  · unfold load_csv; rw [h]; simp [hq]
  · unfold describe_data; rw [h]; simp [hq, ReadResult.rrName, ReadResult.rrMsg]
  · unfold plot_trend plot_trend_run; rw [hfb]
    simp [hq, ReadResult.rrName, ReadResult.rrMsg]
  · unfold find_outliers; rw [hfb]
    simp [hq, ReadResult.rrName, ReadResult.rrMsg]
  · unfold correlation_analysis; rw [hfb]
    simp [hq, ReadResult.rrName, ReadResult.rrMsg]

/-- C5 witness: the five catch-all renderings at a concrete exception. -/
theorem tools_error_rendering_spec_witness :
    find_outliers ⟨.otherError "ValueError" "bad", .ok ⟨[]⟩⟩ "data.csv"
      = outliersErrMsg "ValueError" "bad"
    ∧ correlation_analysis ⟨.otherError "ValueError" "bad", .ok ⟨[]⟩⟩ "data.csv"
      = corrErrMsg "ValueError" "bad"
    ∧ plot_trend ⟨.otherError "ValueError" "bad", .ok ⟨[]⟩⟩ "data.csv"
      = plotErrMsg "ValueError" "bad" :=
  ⟨(tools_error_rendering_spec _ "data.csv" "ValueError" "bad" (by decide) rfl).2.2.2.1,
   (tools_error_rendering_spec _ "data.csv" "ValueError" "bad" (by decide) rfl).2.2.2.2,
   (tools_error_rendering_spec _ "data.csv" "ValueError" "bad" (by decide) rfl).2.2.1⟩

theorem mem_enumFrom_snd {α : Type _} :
    ∀ (l : List α) (k : Nat) (p : Nat × α), p ∈ List.enumFrom k l → p.2 ∈ l
  | [], _, _, h => absurd h (List.not_mem_nil _)
  | a :: l, k, p, h => by
      rcases List.mem_cons.mp h with h | h
      · subst h; exact List.mem_cons_self _ _
      · exact List.mem_cons_of_mem a (mem_enumFrom_snd l (k + 1) p h)

theorem enumFrom_filterMap_snd :
    ∀ (l : List Cell) (k : Nat),
      ((List.enumFrom k l).filterMap fun p => (p.2.toNum).map fun x => (p.1, x)).map
          Prod.snd
        = l.filterMap Cell.toNum
  | [], _ => rfl
  | c :: l, k => by
      have ih := enumFrom_filterMap_snd l (k + 1)
      cases c with
      | na => simpa [List.enumFrom, List.filterMap_cons, Cell.toNum] using ih
      | num x => simpa [List.enumFrom, List.filterMap_cons, Cell.toNum] using ih
      | str s => simpa [List.enumFrom, List.filterMap_cons, Cell.toNum] using ih

/-- The values `find_outliers` works on are the column's non-missing
numeric values, in row order. -/
theorem salesNums_map_snd (c : Column) :
    (salesNums c).map Prod.snd = c.numData := by
  unfold salesNums Column.numData List.enum
  exact enumFrom_filterMap_snd c.cells 0

theorem filterMap_toNum_dropNA :
    ∀ l : List Cell,
      (l.filter fun x => !x.isNA).filterMap Cell.toNum = l.filterMap Cell.toNum
  | [] => rfl
  | c :: l => by
      have ih := filterMap_toNum_dropNA l
      cases c with
      | na => simpa [List.filter_cons, List.filterMap_cons, Cell.isNA, Cell.toNum] using ih
      | num x => simpa [List.filter_cons, List.filterMap_cons, Cell.isNA, Cell.toNum] using ih
      | str s => simpa [List.filter_cons, List.filterMap_cons, Cell.isNA, Cell.toNum] using ih

theorem enumFrom_filter_nil_filterMap :
    ∀ (l : List Cell) (k : Nat),
      (List.enumFrom k l).filter (fun p => !p.2.isNA) = [] →
      (List.enumFrom k l).filterMap (fun p => (p.2.toNum).map fun x => (p.1, x)) = []
  | [], _, _ => rfl
  | c :: l, k, h => by
      cases c with
      | na =>
          have h' : (List.enumFrom (k + 1) l).filter (fun p => !p.2.isNA) = [] := by
            simpa [List.enumFrom, List.filter_cons, Cell.isNA] using h
          have ih := enumFrom_filter_nil_filterMap l (k + 1) h'
          simpa [List.enumFrom, List.filterMap_cons, Cell.toNum] using ih
      | num x => simp [List.enumFrom, List.filter_cons, Cell.isNA] at h
      | str s => simp [List.enumFrom, List.filter_cons, Cell.isNA] at h

/-- If every sales value is missing, there is nothing to extract. -/
theorem salesNums_nil_of_cleaned_nil (c : Column)
    (h : cleanedSales c = []) : salesNums c = [] := by
  unfold cleanedSales List.enum at h
  unfold salesNums List.enum
  exact enumFrom_filter_nil_filterMap c.cells 0 h

/-- A numeric-dtype column has no string cell among its present rows. -/
theorem cleaned_no_str (c : Column) (h : c.isNumeric = true) :
    ((cleanedSales c).any fun p => p.2.isStr) = false := by
  rw [List.any_eq_false]
  intro p hp
  have hmem : p.2 ∈ c.cells :=
    mem_enumFrom_snd c.cells 0 p (List.mem_filter.mp hp).1
  have := (List.all_eq_true.mp h) p.2 hmem
  simp only [Bool.not_eq_eq_eq_not, Bool.not_true] at this
  simp [this]

/-- A well-formed frame owning a column with at least one cell is not
`df.empty`. -/
theorem df_not_empty (df : DataFrame) (c : Column) (hwf : df.wf)
    (hmem : c ∈ df.cols) (hne : c.cells ≠ []) : df.isEmptyDF = false := by
  unfold DataFrame.isEmptyDF
  have h1 : df.cols.isEmpty = false := by
    cases hcols : df.cols with
    | nil => rw [hcols] at hmem; exact absurd hmem (List.not_mem_nil _)
    | cons a l => rfl
  have h2 : df.nrows ≠ 0 := by
    rw [← hwf c hmem]
    simpa using hne
  simp [h1, h2]

/-- C10: `find_outliers` drops the rows with a missing sales value before
computing quartiles (the working values are exactly the column's
non-missing numeric values), the bounds and the flagged count are
functions of that value list alone, and when every sales value is missing
the function returns the dedicated all-values-missing error message. -/
theorem find_outliers_dropna_spec :
    (∀ (env : Env) (query : String) (df : DataFrame) (sales : Column),
        query ≠ "" → readCsvFb env = .ok df → df.isEmptyDF = false →
        detectSalesFirst df = some sales → cleanedSales sales = [] →
        find_outliers env query = allMissingMsg)
    ∧ (∀ c : Column,
        (salesNums c).map Prod.snd = c.numData
        ∧ c.numData = Column.numData ⟨c.name, c.cells.filter fun x => !x.isNA⟩)
    ∧ (∀ c₁ c₂ : Column,
        (salesNums c₁).map Prod.snd = (salesNums c₂).map Prod.snd →
        outlierBounds ((salesNums c₁).map Prod.snd)
            = outlierBounds ((salesNums c₂).map Prod.snd)
        ∧ (flaggedOutliers (salesNums c₁)).length
            = (flaggedOutliers (salesNums c₂)).length) := by
  refine ⟨?_, ?_, ?_⟩
  · intro env query df sales hq hread hemp hdet hclean
    unfold find_outliers
    rw [hread]
    simp [hq, hemp, hdet, hclean]
  · intro c
    refine ⟨salesNums_map_snd c, ?_⟩
    unfold Column.numData
    exact (filterMap_toNum_dropNA c.cells).symm
  · intro c₁ c₂ h
    have hcount : ∀ vals : List (Nat × ℚ),
        (flaggedOutliers vals).length
          = (vals.map Prod.snd).countP fun x =>
              decide (x < (outlierBounds (vals.map Prod.snd)).1)
                || decide ((outlierBounds (vals.map Prod.snd)).2 < x) := by
      intro vals
      unfold flaggedOutliers
      rw [List.countP_map, ← List.countP_eq_length_filter]
      rfl
    exact ⟨by rw [h], by rw [hcount, hcount, h]⟩

/-- C10 witness: the all-missing branch on an all-NaN sales column, and
the invariance of the bounds between two columns whose present values
agree but whose missing rows differ. -/
theorem find_outliers_dropna_spec_witness :
    find_outliers ⟨.ok ⟨[⟨"Sales", [.na, .na]⟩]⟩, .ok ⟨[]⟩⟩ "data.csv" = allMissingMsg
    ∧ outlierBounds ((salesNums ⟨"Sales", [.num 5, .na]⟩).map Prod.snd)
        = outlierBounds ((salesNums ⟨"Sales", [.na, .num 5]⟩).map Prod.snd) :=
  ⟨find_outliers_dropna_spec.1 ⟨.ok ⟨[⟨"Sales", [.na, .na]⟩]⟩, .ok ⟨[]⟩⟩ "data.csv"
      ⟨[⟨"Sales", [.na, .na]⟩]⟩ ⟨"Sales", [.na, .na]⟩
      (by decide) rfl (by decide) (by decide) (by decide),
   (find_outliers_dropna_spec.2.2 ⟨"Sales", [.num 5, .na]⟩ ⟨"Sales", [.na, .num 5]⟩
      (by decide)).1⟩

theorem foundMsg_contains_count (o : List (Nat × ℚ)) (lb ub : ℚ) :
    strContains (outliersFoundMsg o lb ub) (toString o.length) := by
  unfold outliersFoundMsg
  repeat
    first
      | exact strContains_mono_left _ (strContains_self _)
      | apply strContains_mono_right

theorem foundMsg_contains_interp (o : List (Nat × ℚ)) (lb ub : ℚ) :
    strContains (outliersFoundMsg o lb ub) "Бизнес-интерпретация:\n" := by
  unfold outliersFoundMsg
  repeat
    first
      | exact strContains_mono_left _ (strContains_self _)
      | apply strContains_mono_right

theorem foundMsg_contains_take3 (o : List (Nat × ℚ)) (lb ub : ℚ) :
    ∀ p ∈ o.take 3, strContains (outliersFoundMsg o lb ub) (formatQ2 p.2) := by
  intro p hp
  have h1 : strContains (outlierExample p) (formatQ2 p.2) := by
    unfold outlierExample
    exact strContains_mono_left _ (strContains_self _)
  have h2 : strContains (joinSep "\n" ((o.take 3).map outlierExample))
      (outlierExample p) :=
    strContains_joinSep _ _ _ (List.mem_map_of_mem _ hp)
  have h3 : strContains (outliersFoundMsg o lb ub)
      (joinSep "\n" ((o.take 3).map outlierExample)) := by
    unfold outliersFoundMsg
    repeat
      first
        | exact strContains_mono_left _ (strContains_self _)
        | apply strContains_mono_right
  exact strContains_trans h3 (strContains_trans h2 h1)

/-- C1: on a detected (numeric) sales column with at least one present
value, `find_outliers` takes Q1 and Q3 as the 25th and 75th percentiles
of the non-missing sales values, fences at `Q1 - 1.5·IQR` and
`Q3 + 1.5·IQR`, flags exactly the rows strictly outside the fences, and,
when at least one row is flagged, returns the message containing the
flagged count, the formatted sales values of the first three flagged
rows, and the fixed interpretation text (otherwise the no-outliers
message with the two bounds). -/
theorem find_outliers_iqr_spec (env : Env) (query : String) (df : DataFrame)
    (sales : Column) (q1 q3 lb ub : ℚ)
    (hq : query ≠ "") (hread : readCsvFb env = .ok df) (hwf : df.wf)
    (hdet : detectSalesFirst df = some sales) (hnum : sales.isNumeric = true)
    (hnz : salesNums sales ≠ [])
    (hq1 : q1 = percentile ((salesNums sales).map Prod.snd) 25)
    (hq3 : q3 = percentile ((salesNums sales).map Prod.snd) 75)
    (hlb : lb = q1 - 1.5 * (q3 - q1)) (hub : ub = q3 + 1.5 * (q3 - q1)) :
    outlierBounds ((salesNums sales).map Prod.snd) = (lb, ub)
    ∧ (∀ i v, (i, v) ∈ flaggedOutliers (salesNums sales) ↔
        (i, v) ∈ salesNums sales ∧ (v < lb ∨ ub < v))
    ∧ (flaggedOutliers (salesNums sales) ≠ [] →
        find_outliers env query
            = outliersFoundMsg (flaggedOutliers (salesNums sales)) lb ub
        ∧ strContains (find_outliers env query)
            (toString (flaggedOutliers (salesNums sales)).length)
        ∧ (∀ p ∈ (flaggedOutliers (salesNums sales)).take 3,
            strContains (find_outliers env query) (formatQ2 p.2))
        ∧ strContains (find_outliers env query) "Бизнес-интерпретация:\n")
    ∧ (flaggedOutliers (salesNums sales) = [] →
        find_outliers env query = noOutliersFoundMsg lb ub) := by
  have hbounds : outlierBounds ((salesNums sales).map Prod.snd) = (lb, ub) := by
    subst hq1 hq3 hlb hub; rfl
  have hmemiff : ∀ i v, (i, v) ∈ flaggedOutliers (salesNums sales) ↔
      (i, v) ∈ salesNums sales ∧ (v < lb ∨ ub < v) := by
    intro i v
    unfold flaggedOutliers
    rw [hbounds]
    simp [List.mem_filter]
  have hmem : sales ∈ df.cols := by
    unfold detectSalesFirst at hdet
    exact List.mem_of_find?_eq_some hdet
  have hcellsne : sales.cells ≠ [] := by
    intro hc
    apply hnz
    unfold salesNums List.enum
    rw [hc]
    rfl
  have hemp : df.isEmptyDF = false := df_not_empty df sales hwf hmem hcellsne
  have hcleanne : (cleanedSales sales).isEmpty = false := by
    rw [List.isEmpty_eq_false]
    intro hc
    exact hnz (salesNums_nil_of_cleaned_nil sales hc)
  have hnostr := cleaned_no_str sales hnum
  have heval : find_outliers env query
      = if (flaggedOutliers (salesNums sales)).isEmpty
        then noOutliersFoundMsg lb ub
        else outliersFoundMsg (flaggedOutliers (salesNums sales)) lb ub := by
    unfold find_outliers
    rw [hread]
    simp only [hq, if_neg, hemp, Bool.false_eq_true, hdet, hcleanne, hnostr,
      hbounds]
    simp [hq]
  refine ⟨hbounds, hmemiff, fun hne => ?_, fun hnil => ?_⟩
  · have hne' : (flaggedOutliers (salesNums sales)).isEmpty = false := by
      rw [List.isEmpty_eq_false]; exact hne
    have heq : find_outliers env query
        = outliersFoundMsg (flaggedOutliers (salesNums sales)) lb ub := by
      rw [heval, hne']; rfl
    refine ⟨heq, ?_, ?_, ?_⟩
    · rw [heq]; exact foundMsg_contains_count _ _ _
    · rw [heq]; exact foundMsg_contains_take3 _ _ _
    · rw [heq]; exact foundMsg_contains_interp _ _ _
  · rw [heval, hnil]
    rfl

/-- C1 witness: the IQR pipeline evaluated on a concrete five-row sales
column `[1, 2, 3, 100, NaN]`, whose fences are `[-36.5, 65.5]` and whose
single flagged row is row 3 with value 100. -/
theorem find_outliers_iqr_spec_witness :
    find_outliers
        ⟨.ok ⟨[⟨"Sales", [.num 1, .num 2, .num 3, .num 100, .na]⟩]⟩, .ok ⟨[]⟩⟩
        "data.csv"
      = outliersFoundMsg
          (flaggedOutliers (salesNums ⟨"Sales", [.num 1, .num 2, .num 3, .num 100, .na]⟩))
          (-73 / 2) (131 / 2) :=
  ((find_outliers_iqr_spec
      ⟨.ok ⟨[⟨"Sales", [.num 1, .num 2, .num 3, .num 100, .na]⟩]⟩, .ok ⟨[]⟩⟩
      "data.csv"
      ⟨[⟨"Sales", [.num 1, .num 2, .num 3, .num 100, .na]⟩]⟩
      ⟨"Sales", [.num 1, .num 2, .num 3, .num 100, .na]⟩
      (7 / 4) (109 / 4) (-73 / 2) (131 / 2)
      (by decide) rfl (by decide) (by decide) (by decide) (by decide)
      (by decide) (by decide) (by decide) (by decide)).2.2.1 (by decide)).1

theorem mem_of_getLast?_eq_some {α : Type _} {l : List α} {a : α}
    (h : l.getLast? = some a) : a ∈ l := by
  obtain ⟨ys, rfl⟩ := List.getLast?_eq_some_iff.mp h
  simp

theorem detectYearLast_eq (df : DataFrame) :
    detectYearLast df = (df.cols.filter fun c => isYearName c.name).getLast? := by
  unfold detectYearLast
  rw [foldl_detect]
  cases (df.cols.filter fun c => isYearName c.name).getLast? <;> rfl

theorem detectYearLast_mem {df : DataFrame} {c : Column}
    (h : detectYearLast df = some c) : c ∈ df.cols := by
  rw [detectYearLast_eq] at h
  exact (List.mem_filter.mp (mem_of_getLast?_eq_some h)).1

theorem detectSalesLast_mem {df : DataFrame} {c : Column}
    (h : detectSalesLast df = some c) : c ∈ df.cols := by
  rw [detectSalesLast_eq] at h
  exact (List.mem_filter.mp (mem_of_getLast?_eq_some h)).1

theorem mem_dedupFirstAux (x : Cell) :
    ∀ (l seen : List Cell), x ∈ dedupFirstAux seen l ↔ x ∈ l ∧ x ∉ seen
  | [], seen => by simp [dedupFirstAux]
  | y :: ys, seen => by
      by_cases hy : y ∈ seen
      · rw [dedupFirstAux, if_pos hy, mem_dedupFirstAux x ys seen]
        constructor
        · exact fun ⟨h1, h2⟩ => ⟨List.mem_cons_of_mem y h1, h2⟩
        · rintro ⟨h1, h2⟩
          rcases List.mem_cons.mp h1 with rfl | h1
          · exact absurd hy h2
          · exact ⟨h1, h2⟩
      · rw [dedupFirstAux, if_neg hy, List.mem_cons,
          mem_dedupFirstAux x ys (y :: seen), List.mem_cons, List.mem_cons]
        by_cases hxy : x = y
        · subst hxy; simp [hy]
        · simp [hxy]

theorem mem_dedupFirst (x : Cell) (l : List Cell) :
    x ∈ dedupFirst l ↔ x ∈ l := by
  rw [dedupFirst, mem_dedupFirstAux]
  simp

theorem dedupFirst_ne_nil {l : List Cell} (h : l ≠ []) : dedupFirst l ≠ [] := by
  cases l with
  | nil => exact absurd rfl h
  | cons a t =>
      unfold dedupFirst dedupFirstAux
      simp

theorem homogKeys_of_numeric {c : Column} (h : c.isNumeric = true) :
    c.homogKeys = true := by
  unfold Column.homogKeys
  have : (c.nonNA.all fun x => !x.isStr) = true := by
    rw [List.all_eq_true]
    intro x hx
    exact (List.all_eq_true.mp h) x (List.mem_filter.mp hx).1
  rw [this]
  simp

theorem yearKeys_ne_nil {c : Column} (h : c.nonNA ≠ []) :
    yearKeys c ≠ [] := by
  unfold yearKeys
  intro hk
  have hperm := List.perm_insertionSort cellKeyLe (dedupFirst c.nonNA)
  rw [hk] at hperm
  exact dedupFirst_ne_nil h hperm.symm.eq_nil

theorem mem_yearKeys (c : Column) (k : Cell) :
    k ∈ yearKeys c ↔ k ∈ c.cells ∧ k.isNA = false := by
  unfold yearKeys
  rw [(List.perm_insertionSort cellKeyLe (dedupFirst c.nonNA)).mem_iff,
    mem_dedupFirst]
  unfold Column.nonNA
  rw [List.mem_filter]
  simp

theorem trendData_map_fst (yc sc : Column) :
    (trendData yc sc).map Prod.fst = yearKeys yc := by
  unfold trendData
  rw [List.map_map]
  exact List.map_id'' (fun k => rfl) (yearKeys yc)

/-- The success message of `plot_trend` names the fixed output file. -/
theorem plotSuccess_contains_file (keys : List Cell) (nrows : Nat) :
    strContains (plotSuccessMsg keys nrows) "sales_trend.png" := by
  unfold plotSuccessMsg
  repeat apply strContains_mono_right
  exact ⟨"✅ График сохранён как \x27", "\x27.\n", by decide⟩

/-- C7: on a file with a detected year-established column (lowercase name
containing both "year" and "establish") and a detected sales column,
`plot_trend` groups the rows by the year column, sums the sales within
each group, renders a bar chart of those totals (keys ascending), saves
it under the fixed name `sales_trend.png`, and returns a success message
naming that file.  The detected columns are assumed numeric (pandas
raises on heterogeneous group keys and on bar-plotting object sums) and
the year column to have at least one present value (else the code
returns its empty-groupby error instead). -/
theorem plot_trend_spec (env : Env) (query : String) (df : DataFrame)
    (yc sc : Column)
    (hq : query ≠ "") (hread : readCsvFb env = .ok df) (hwf : df.wf)
    (hyc : detectYearLast df = some yc) (hsc : detectSalesLast df = some sc)
    (hycnum : yc.isNumeric = true) (hscnum : sc.isNumeric = true)
    (hynz : yc.nonNA ≠ []) :
    plot_trend_run env query
        = (some { labels := (trendData yc sc).map fun p => p.1.render
                  heights := (trendData yc sc).map fun p => p.2
                  file := "sales_trend.png" },
           plotSuccessMsg (yearKeys yc) df.nrows)
    ∧ (∀ k : Cell, k ∈ (trendData yc sc).map Prod.fst ↔
        k ∈ yc.cells ∧ k.isNA = false)
    ∧ (∀ p ∈ trendData yc sc, p.2 = groupSum yc sc p.1)
    ∧ strContains (plot_trend env query) "sales_trend.png" := by
  have hmem : yc ∈ df.cols := detectYearLast_mem hyc
  have hcells : yc.cells ≠ [] := by
    intro hc
    apply hynz
    unfold Column.nonNA
    rw [hc]
    rfl
  have hemp : df.isEmptyDF = false := df_not_empty df yc hwf hmem hcells
  have hhom : yc.homogKeys = true := homogKeys_of_numeric hycnum
  have hkeys : (yearKeys yc).isEmpty = false := by
    rw [List.isEmpty_eq_false]
    exact yearKeys_ne_nil hynz
  have heval : plot_trend_run env query
      = (some { labels := (trendData yc sc).map fun p => p.1.render
                heights := (trendData yc sc).map fun p => p.2
                file := "sales_trend.png" },
         plotSuccessMsg (yearKeys yc) df.nrows) := by
    unfold plot_trend_run
    rw [hread]
    simp [hq, hemp, hyc, hsc, hhom, hkeys, hscnum]
  refine ⟨heval, ?_, ?_, ?_⟩
  · intro k
    rw [trendData_map_fst]
    exact mem_yearKeys yc k
  · intro p hp
    obtain ⟨k, _, rfl⟩ := List.mem_map.mp hp
    rfl
  · unfold plot_trend
    rw [heval]
    exact plotSuccess_contains_file _ _

/-- C7 witness: two year groups 1990 and 2000 with sales sums 3 and 3,
plotted and saved as `sales_trend.png`. -/
theorem plot_trend_spec_witness :
    plot_trend_run
        ⟨.ok ⟨[⟨"Year Established", [.num 1990, .num 1990, .num 2000]⟩,
               ⟨"Sales", [.num 1, .num 2, .num 3]⟩]⟩, .ok ⟨[]⟩⟩ "data.csv"
      = (some { labels := (trendData ⟨"Year Established", [.num 1990, .num 1990, .num 2000]⟩
                    ⟨"Sales", [.num 1, .num 2, .num 3]⟩).map fun p => p.1.render
                heights := (trendData ⟨"Year Established", [.num 1990, .num 1990, .num 2000]⟩
                    ⟨"Sales", [.num 1, .num 2, .num 3]⟩).map fun p => p.2
                file := "sales_trend.png" },
         plotSuccessMsg (yearKeys ⟨"Year Established", [.num 1990, .num 1990, .num 2000]⟩) 3) :=
  (plot_trend_spec
      ⟨.ok ⟨[⟨"Year Established", [.num 1990, .num 1990, .num 2000]⟩,
             ⟨"Sales", [.num 1, .num 2, .num 3]⟩]⟩, .ok ⟨[]⟩⟩ "data.csv"
      ⟨[⟨"Year Established", [.num 1990, .num 1990, .num 2000]⟩,
        ⟨"Sales", [.num 1, .num 2, .num 3]⟩]⟩
      ⟨"Year Established", [.num 1990, .num 1990, .num 2000]⟩
      ⟨"Sales", [.num 1, .num 2, .num 3]⟩
      (by decide) rfl (by decide) (by decide) (by decide)
      (by decide) (by decide) (by decide)).1

/-- What it means to be kept by the `abs(r) > 0.3` filter. -/
theorem mem_corrCandidates (df : DataFrame) (sales : Column)
    (nm : String) (v : CorrVal) :
    (nm, v) ∈ corrCandidates df sales ↔
      ∃ c, c ∈ numericOthers df sales ∧ c.name = nm
        ∧ corrOf c.cells sales.cells = some v ∧ (9 / 100 : ℚ) < v.absSq := by
  unfold corrCandidates
  rw [List.mem_filterMap]
  constructor
  · rintro ⟨c, hc, hfc⟩
    refine ⟨c, hc, ?_⟩
    cases hcv : corrOf c.cells sales.cells with
    | none => simp [hcv] at hfc
    | some v' =>
        simp only [hcv] at hfc
        by_cases ht : (9 / 100 : ℚ) < v'.absSq
        · simp only [if_pos ht, Option.some.injEq, Prod.mk.injEq] at hfc
          obtain ⟨h1, h2⟩ := hfc
          subst h2
          exact ⟨h1, rfl, ht⟩
        · simp [if_neg ht] at hfc
  · rintro ⟨c, hc, hnm, hcv, ht⟩
    exact ⟨c, hc, by rw [hcv]; simp [if_pos ht, hnm]⟩

/-- C2: on a non-empty file with a detected (numeric) sales column and at
least one other numeric column, the reported numeric correlations are
exactly the pairs whose Pearson correlation with sales exists and exceeds
0.3 in absolute value (membership characterisation), arranged in
decreasing order of absolute correlation (a sorted permutation), cut to
at most the top 3; and the returned string is built from that report. -/
theorem correlation_top3_spec (env : Env) (query : String) (df : DataFrame)
    (sales : Column)
    (hq : query ≠ "") (hread : readCsvFb env = .ok df)
    (hemp : df.isEmptyDF = false)
    (hdet : detectSalesFirst df = some sales) (hnum : sales.isNumeric = true)
    (hothers : numericOthers df sales ≠ []) :
    (∀ nm v, (nm, v) ∈ corrCandidates df sales ↔
        ∃ c, c ∈ numericOthers df sales ∧ c.name = nm
          ∧ corrOf c.cells sales.cells = some v ∧ (9 / 100 : ℚ) < v.absSq)
    ∧ (corrSort (corrCandidates df sales)).Perm (corrCandidates df sales)
    ∧ List.Sorted corrGE (corrSort (corrCandidates df sales))
    ∧ corrReported df sales = (corrSort (corrCandidates df sales)).take 3
    ∧ (corrReported df sales).length ≤ 3
    ∧ correlation_analysis env query
        = numericReport df sales ++ "\n\n" ++ categoricalReport df sales
          ++ "\n\n" ++ corrInterp
    ∧ (corrCandidates df sales ≠ [] →
        numericReport df sales
          = joinSep "\n" ("ТОП-3 корреляций с продажами:"
              :: ((corrReported df sales).enum.map (corrLine sales.name)))) := by
  refine ⟨mem_corrCandidates df sales, List.perm_insertionSort corrGE _,
    List.sorted_insertionSort corrGE _, rfl, ?_, ?_, ?_⟩
  · unfold corrReported
    exact le_trans (List.length_take_le 3 _) (le_refl 3)
  · unfold correlation_analysis
    rw [hread]
    simp [hq, hemp, hdet, hnum]
  · intro hcands
    have h1 : (numericOthers df sales).isEmpty = false := by
      rw [List.isEmpty_eq_false]; exact hothers
    have h2 : (corrCandidates df sales).isEmpty = false := by
      rw [List.isEmpty_eq_false]; exact hcands
    unfold numericReport
    rw [h1, h2]
    rfl

/-- C2 witness: a perfectly correlated quantity column is reported as the
single top correlation against the detected sales column. -/
theorem correlation_top3_spec_witness :
    correlation_analysis
        ⟨.ok ⟨[⟨"qty", [.num 1, .num 2, .num 3]⟩,
               ⟨"Sales", [.num 2, .num 4, .num 6]⟩]⟩, .ok ⟨[]⟩⟩ "data.csv"
      = numericReport
            ⟨[⟨"qty", [.num 1, .num 2, .num 3]⟩, ⟨"Sales", [.num 2, .num 4, .num 6]⟩]⟩
            ⟨"Sales", [.num 2, .num 4, .num 6]⟩
          ++ "\n\n"
          ++ categoricalReport
            ⟨[⟨"qty", [.num 1, .num 2, .num 3]⟩, ⟨"Sales", [.num 2, .num 4, .num 6]⟩]⟩
            ⟨"Sales", [.num 2, .num 4, .num 6]⟩
          ++ "\n\n" ++ corrInterp :=
  (correlation_top3_spec
      ⟨.ok ⟨[⟨"qty", [.num 1, .num 2, .num 3]⟩, ⟨"Sales", [.num 2, .num 4, .num 6]⟩]⟩,
        .ok ⟨[]⟩⟩ "data.csv"
      ⟨[⟨"qty", [.num 1, .num 2, .num 3]⟩, ⟨"Sales", [.num 2, .num 4, .num 6]⟩]⟩
      ⟨"Sales", [.num 2, .num 4, .num 6]⟩
      (by decide) rfl (by decide) (by decide) (by decide)
      (by decide)).2.2.2.2.2.1

/-- Everything `catTop` reports for one column is a category of that
column with its correct group mean, and at most three are reported. -/
theorem catTop_sound (cat sales : Column) :
    (catTop cat sales).length ≤ 3
    ∧ ∀ km ∈ catTop cat sales,
        km.2 = groupMean cat sales km.1 ∧ km.1 ∈ cat.nonNA := by
  constructor
  · exact List.length_take_le 3 _
  · intro km hkm
    have h1 : km ∈ List.insertionSort meanGE
        ((dedupFirst cat.nonNA).map fun k => (k, groupMean cat sales k)) :=
      List.take_subset 3 _ hkm
    have h2 : km ∈ (dedupFirst cat.nonNA).map fun k => (k, groupMean cat sales k) :=
      (List.perm_insertionSort meanGE _).mem_iff.mp h1
    obtain ⟨k, hk, rfl⟩ := List.mem_map.mp h2
    exact ⟨rfl, (mem_dedupFirst k _).mp hk⟩

/-- C3: on a non-empty file with a detected (numeric) sales column,
`correlation_analysis` reports mean sales per category for at most the
first two categorical (object-dtype) columns among those with at most 50
distinct non-missing values; each reported figure is the mean of the
present sales values of that category's rows (at most three categories
per column are printed). -/
theorem correlation_categorical_spec (env : Env) (query : String)
    (df : DataFrame) (sales : Column)
    (hq : query ≠ "") (hread : readCsvFb env = .ok df)
    (hemp : df.isEmptyDF = false)
    (hdet : detectSalesFirst df = some sales) (hnum : sales.isNumeric = true) :
    (∀ c : Column, c ∈ catCols df ↔
        c ∈ df.cols ∧ c.isNumeric = false ∧ (dedupFirst c.nonNA).length ≤ 50)
    ∧ (catReported df sales).map Prod.fst = (catCols df).take 2
    ∧ (catReported df sales).length ≤ 2
    ∧ (∀ pr ∈ catReported df sales,
        pr.2 = catTop pr.1 sales
        ∧ pr.2.length ≤ 3
        ∧ ∀ km ∈ pr.2, km.2 = groupMean pr.1 sales km.1 ∧ km.1 ∈ pr.1.nonNA)
    ∧ correlation_analysis env query
        = numericReport df sales ++ "\n\n" ++ categoricalReport df sales
          ++ "\n\n" ++ corrInterp
    ∧ (catCols df ≠ [] →
        categoricalReport df sales
          = "Анализ категориальных переменных:"
            ++ joinSep "" (((catCols df).take 2).map (catSection sales))) := by
  refine ⟨?_, ?_, ?_, ?_, ?_, ?_⟩
  · intro c
    unfold catCols DataFrame.objectCols
    rw [List.mem_filter, List.mem_filter]
    simp [and_assoc]
  · unfold catReported
    rw [List.map_map]
    exact List.map_id'' (fun c => rfl) _
  · unfold catReported
    rw [List.length_map]
    exact le_trans (List.length_take_le 2 _) (le_refl 2)
  · intro pr hpr
    obtain ⟨c, _, rfl⟩ := List.mem_map.mp hpr
    exact ⟨rfl, (catTop_sound c sales).1, (catTop_sound c sales).2⟩
  · unfold correlation_analysis
    rw [hread]
    simp [hq, hemp, hdet, hnum]
  · intro hcats
    have h1 : (catCols df).isEmpty = false := by
      rw [List.isEmpty_eq_false]; exact hcats
    unfold categoricalReport
    rw [h1]
    rfl

/-- C3 witness: one object column `Region` with two categories, reported
with the mean of the present sales per category. -/
theorem correlation_categorical_spec_witness :
    (catReported
        ⟨[⟨"Region", [.str "N", .str "S", .str "N"]⟩,
          ⟨"Sales", [.num 2, .num 4, .num 6]⟩]⟩
        ⟨"Sales", [.num 2, .num 4, .num 6]⟩).map Prod.fst
      = (catCols ⟨[⟨"Region", [.str "N", .str "S", .str "N"]⟩,
          ⟨"Sales", [.num 2, .num 4, .num 6]⟩]⟩).take 2 :=
  (correlation_categorical_spec
      ⟨.ok ⟨[⟨"Region", [.str "N", .str "S", .str "N"]⟩,
             ⟨"Sales", [.num 2, .num 4, .num 6]⟩]⟩, .ok ⟨[]⟩⟩ "data.csv"
      ⟨[⟨"Region", [.str "N", .str "S", .str "N"]⟩,
        ⟨"Sales", [.num 2, .num 4, .num 6]⟩]⟩
      ⟨"Sales", [.num 2, .num 4, .num 6]⟩
      (by decide) rfl (by decide) (by decide) (by decide)).2.1

/-- C8 counterexample: a non-empty file whose single column is
object-dtyped (no numeric columns).  `df.describe()` then summarises the
object columns (count/unique/top/freq), `stats.empty` is false, and
`describe_data` returns that summary — not the no-numeric-columns error
message the claim requires. -/
theorem describe_data_no_numeric_counterexample :
    ((⟨[⟨"name", [.str "a", .str "b"]⟩]⟩ : DataFrame).numericCols = []
      ∧ (⟨[⟨"name", [.str "a", .str "b"]⟩]⟩ : DataFrame).isEmptyDF = false)
    ∧ describe_data ⟨.ok ⟨[⟨"name", [.str "a", .str "b"]⟩]⟩, .ok ⟨[]⟩⟩ "data.csv"
        ≠ noNumericMsg "data.csv" :=
  ⟨⟨by decide, by decide⟩, by decide⟩

/-- C8 (amended): for every non-empty file, the `stats.empty` test that
gates the no-numeric-columns error is false — the error branch is
unreachable — and `describe_data` returns the summary of the numeric
columns only (count/mean/std/min/25%/50%/75%/max) when at least one
numeric column exists, and pandas' object fallback summary
(count/unique/top/freq over all columns) when none does. -/
theorem describe_data_amended_spec (env : Env) (query : String)
    (df : DataFrame)
    (hq : query ≠ "") (hread : env.readDefault = .ok df)
    (hemp : df.isEmptyDF = false) :
    (describeDF df).isEmptyT = false
    ∧ (df.numericCols ≠ [] →
        describe_data env query
          = renderDescribe
              (.numeric (df.numericCols.map fun c => (c.name, numStatsOf c))))
    ∧ (df.numericCols = [] →
        describe_data env query
          = renderDescribe
              (.objects (df.cols.map fun c => (c.name, objStatsOf c))))
    ∧ (∀ c ∈ df.numericCols, c.numData ≠ [] →
        (numStatsOf c).count = c.numData.length
        ∧ (numStatsOf c).mean = some (c.numData.sum / (c.numData.length : ℚ))
        ∧ (numStatsOf c).q25 = some (percentile c.numData 25)
        ∧ (numStatsOf c).q50 = some (percentile c.numData 50)
        ∧ (numStatsOf c).q75 = some (percentile c.numData 75)
        ∧ (numStatsOf c).min = c.numData.min?
        ∧ (numStatsOf c).max = c.numData.max?) := by
  have hcols : df.cols.isEmpty = false := by
    unfold DataFrame.isEmptyDF at hemp
    exact (Bool.or_eq_false_iff.mp hemp).1
  have hne : (describeDF df).isEmptyT = false := by
    unfold describeDF
    by_cases h : df.numericCols.isEmpty
    · rw [if_pos h]
      unfold DescribeTable.isEmptyT
      rw [List.isEmpty_eq_false] at hcols ⊢
      simpa using hcols
    · rw [if_neg h]
      unfold DescribeTable.isEmptyT
      rw [Bool.not_eq_true] at h
      rw [List.isEmpty_eq_false] at h ⊢
      simpa using h
  refine ⟨hne, ?_, ?_, ?_⟩
  · intro hnum
    have h1 : df.numericCols.isEmpty = false := by
      rw [List.isEmpty_eq_false]; exact hnum
    have htab : describeDF df
        = .numeric (df.numericCols.map fun c => (c.name, numStatsOf c)) := by
      unfold describeDF
      rw [h1]
      rfl
    unfold describe_data
    rw [hread]
    simp [hq, hemp, htab ▸ hne, htab]
  · intro hnum
    have h1 : df.numericCols.isEmpty = true := by
      rw [hnum]; rfl
    have htab : describeDF df
        = .objects (df.cols.map fun c => (c.name, objStatsOf c)) := by
      unfold describeDF
      rw [h1]
      rfl
    unfold describe_data
    rw [hread]
    simp [hq, hemp, htab ▸ hne, htab]
  · intro c _ hdata
    have hlen : ¬c.numData.length = 0 := by
      simpa [List.length_eq_zero] using hdata
    unfold numStatsOf
    simp [hlen]

/-- C8 witness: the numeric branch of the amended statement evaluated on
a one-column numeric frame. -/
theorem describe_data_amended_spec_witness :
    describe_data ⟨.ok ⟨[⟨"Sales", [.num 1, .num 2]⟩]⟩, .ok ⟨[]⟩⟩ "data.csv"
      = renderDescribe
          (.numeric ((⟨[⟨"Sales", [.num 1, .num 2]⟩]⟩ : DataFrame).numericCols.map
            fun c => (c.name, numStatsOf c))) :=
  (describe_data_amended_spec ⟨.ok ⟨[⟨"Sales", [.num 1, .num 2]⟩]⟩, .ok ⟨[]⟩⟩
      "data.csv" ⟨[⟨"Sales", [.num 1, .num 2]⟩]⟩
      (by decide) rfl (by decide)).2.1 (by decide)

end AgentAnalyst
